import Mathlib

/-!
Verification of the moego core execution engine (package core): the
StateGraph / RunnableState.Invoke step loop, the Streamer mode-gated
emissions, and the InterruptManager breakpoint / interrupt / resume
controller.

The embedding is shallow: Go step functions `func(ctx, T) (T, error)`
become Lean functions `T -> T × Option (GoError D)`; the two streaming
channels and the interrupt channel become an ordered emission trace;
the blocking resume rendezvous becomes an oracle (`Env.resumes`) giving,
for each WaitForResume call, either the resumed state delivered by a
compliant external controller (which, via Resume, has reset the
interrupted flag to false before sending) or `none` for context
cancellation.  Breakpoint membership is read once per loop iteration
(HasBreakpoint under the mutex), so the externally mutable breakpoint
set is an oracle `Env.bps` indexed by the iteration counter.
JSON serialization of the opaque state and interrupt payload is
abstracted into explicit marshal functions; `json.Marshal(nil)`
always succeeds with the literal `null`, which is kept concrete.
-/

namespace Moego

/-- Stream modes of the Streamer (stream.go). -/
inductive StreamMode where
  | values
  | updates
  | custom
  | messages
  | debug
deriving DecidableEq, Repr

/-- Event types used by Invoke (stream.go); only chain start and end occur. -/
inductive EventType where
  | chainStart
  | chainEnd
deriving DecidableEq, Repr

/-- InterruptInfo as sent on the interrupt channel: node name plus the
serialized (transport form) data and state. -/
structure InterruptInfo where
  NodeName : String
  Data : String
  State : String
deriving DecidableEq, Repr

/-- One observable emission of a run: a StreamEvent on the stream channel
(value or update mode), an Event on the event channel (fields reduced to
the behaviourally relevant type, name and step metadata; RunID and
Timestamp are wall-clock dependent and not modelled), or an InterruptInfo
on the interrupt channel. -/
inductive Emission (T : Type) where
  | streamValue (s : T)
  | streamUpdate (s : T)
  | event (ty : EventType) (name : String) (meta : Option (Nat × String))
  | interrupt (info : InterruptInfo)
deriving DecidableEq, Repr

/-- The Go error returned by a step function, split into the
interrupt-flavored sentinel `*InterruptError{Data}` (whose payload is an
`interface\x7b\x7d`, hence possibly nil, modelled as `Option D`) and any
other error, reduced to its message. -/
inductive GoError (D : Type) where
  | interruptError (data : Option D)
  | other (msg : String)
deriving DecidableEq, Repr

/-- A node of the state graph: name and step function. -/
structure StateNode (T D : Type) where
  Name : String
  Function : T → T × Option (GoError D)

/-- A conditional edge: origin, router and optional name mapping.  The Go
map[string]string is modelled as an association list with its lookup. -/
structure ConditionalEdge (T : Type) where
  From : String
  Router : T → Except String (List String)
  Mapping : Option (List (String × String))

/-- The compiled state graph as Invoke consumes it: node registry
(Go map, modelled as an association list keyed by name), ordered edge
list, entry point, recursion limit (a Go int, possibly non-positive) and
the active stream modes of the Streamer it owns. -/
structure StateGraph (T D : Type) where
  nodes : List (String × StateNode T D)
  edges : List (ConditionalEdge T)
  entryPoint : String
  recursionLimit : Int
  streamModes : List StreamMode

/-- Modelled from the spec: the terminal sentinel node name END
(declared in a core constants file that is not part of src/); reaching it
halts execution without invoking any node function.  Its literal value is
irrelevant to the engine, which only compares the current node to it. -/
def END : String := "END"

/-- The mutable loop variables of one Invoke run, together with the
interrupted flag of the shared InterruptManager and the model counters:
`iter` counts loop iterations (indexing breakpoint-set reads) and
`resumeIdx` counts WaitForResume rendezvous. -/
structure LoopState (T : Type) where
  currentNode : String
  state : T
  steps : Nat
  iter : Nat
  resumeIdx : Nat
  interrupted : Bool
deriving DecidableEq, Repr

/-- The external environment of a run: breakpoint membership as observed
by the HasBreakpoint read of iteration i, and the outcome of the i-th
WaitForResume rendezvous (`some s` = a compliant controller called
Resume(s), `none` = the context was cancelled). -/
structure Env (T : Type) where
  bps : Nat → String → Bool
  resumes : Nat → Option T

/-- Structured form of the fatal errors Invoke can return. -/
inductive InvokeError where
  | recursionLimitExceeded (limit : Int)
  | breakpointTrigger (msg : String)
  | interruptTrigger (msg : String)
  | waitForResume (msg : String)
  | nodeNotFound (node : String)
  | nodeExecution (node : String) (msg : String)
  | routerError (node : String) (msg : String)
  | invalidRouterOutput (msg : String)
  | noOutgoingEdge (node : String)
deriving DecidableEq, Repr

/-- Result of one loop iteration: return from Invoke, or loop again. -/
inductive IterOut (T : Type) where
  | ret (s : T) (e : Option InvokeError)
  | next (ls : LoopState T)
deriving DecidableEq, Repr

/-- Result of a whole (fuel-bounded) run: the Go return pair, or fuel
exhaustion (a model artifact: the Go loop can run unboundedly when a node
interrupts forever). -/
inductive InvokeOutcome (T : Type) where
  | ret (s : T) (e : Option InvokeError)
  | fuelOut (ls : LoopState T)
deriving DecidableEq, Repr

/-- Streamer.hasMode (stream.go line 166). -/
def hasMode (modes : List StreamMode) (m : StreamMode) : Bool :=
  modes.contains m

/-- Streamer.EmitValue: sends a values-mode StreamEvent when active. -/
def emitValue {T : Type} (modes : List StreamMode) (s : T) : List (Emission T) :=
  if hasMode modes StreamMode.values then [Emission.streamValue s] else []

/-- Streamer.EmitUpdate: sends an updates-mode StreamEvent when active. -/
def emitUpdate {T : Type} (modes : List StreamMode) (s : T) : List (Emission T) :=
  if hasMode modes StreamMode.updates then [Emission.streamUpdate s] else []

/-- Streamer.EmitEvent: sends an Event when debug mode is active. -/
def emitEvent {T : Type} (modes : List StreamMode) (ty : EventType) (name : String)
    (meta : Option (Nat × String)) : List (Emission T) :=
  if hasMode modes StreamMode.debug then [Emission.event ty name meta] else []

/-- json.Marshal applied to the interrupt payload interface value:
marshalling Go nil always yields the literal null. -/
def marshalDataOpt {D : Type} (mD : D → Except String String) :
    Option D → Except String String
  | none => Except.ok "null"
  | some d => mD d

/-- InterruptManager.Interrupt restricted to the interrupted flag
(interrupt.go lines 79 to 106): fail when already interrupted; otherwise
set the flag to true (under the mutex, before any marshalling), marshal
data then state, and on success hand the InterruptInfo to the blocking
send.  Returns the new flag value and the outcome. -/
def InterruptFlag {T D : Type} (mD : D → Except String String)
    (mT : T → Except String String) (interrupted : Bool) (nodeName : String)
    (data : Option D) (state : T) : Bool × Except String InterruptInfo :=
  if interrupted then
    (interrupted, Except.error "already interrupted")
  else
    match marshalDataOpt mD data with
    | Except.error e => (true, Except.error e)
    | Except.ok dataBytes =>
      match mT state with
      | Except.error e => (true, Except.error e)
      | Except.ok stateBytes =>
        (true, Except.ok { NodeName := nodeName, Data := dataBytes, State := stateBytes })

/-- The InterruptManager state: the mutex-guarded interrupted flag and the
breakpoint set (channels are modelled at the trace level). -/
structure InterruptManager where
  interrupted : Bool
  breakpoints : List String
deriving DecidableEq, Repr

/-- InterruptManager.Interrupt at the manager level: the flag evolves per
InterruptFlag and the breakpoint set is untouched. -/
def InterruptManager.Interrupt {T D : Type} (mD : D → Except String String)
    (mT : T → Except String String) (m : InterruptManager) (nodeName : String)
    (data : Option D) (state : T) : InterruptManager × Except String InterruptInfo :=
  match InterruptFlag mD mT m.interrupted nodeName data state with
  | (fl, r) => ({ m with interrupted := fl }, r)

/-- The package-level Interrupt helper for step functions
(interrupt.go lines 139 to 142): ignores the context and returns the Go
zero value of T together with an InterruptError carrying the data. -/
def Interrupt {T D C : Type} (zero : T) (ctx : C) (data : Option D) :
    T × Option (GoError D) :=
  (zero, some (GoError.interruptError data))

/-- IsInterruptError (interrupt.go lines 154 to 157): the dynamic type
test for the interrupt sentinel; a nil error is not an InterruptError. -/
def IsInterruptError {D : Type} : Option (GoError D) → Bool
  | some (GoError.interruptError _) => true
  | _ => false

/-- GetInterruptData (interrupt.go lines 160 to 165): extract the payload
from an InterruptError, with the found flag. -/
def GetInterruptData {D : Type} : Option (GoError D) → Option D × Bool
  | some (GoError.interruptError d) => (d, true)
  | _ => (none, false)

/-- Translation of a single router-returned name through the optional
mapping: mapped when present, passed through unchanged when absent or
when there is no mapping. -/
def mapName (mapping : Option (List (String × String))) (n : String) : String :=
  match mapping with
  | none => n
  | some mp =>
    match mp.lookup n with
    | some mapped => mapped
    | none => n

/-- The mapping loop of Invoke (lines 280 to 290): when a mapping exists,
translate every router-returned name through it, names absent from the
mapping passing through unchanged; a nil mapping leaves the list as is. -/
def applyMapping (mapping : Option (List (String × String)))
    (nodes : List String) : List String :=
  match mapping with
  | none => nodes
  | some mp =>
    nodes.map (fun n =>
      match mp.lookup n with
      | some mapped => mapped
      | none => n)

/-- The routing scan of Invoke (lines 264 to 302): walk the edges in
definition order; at the first edge whose From equals the current node,
run its router, fail on router error or empty output, otherwise apply the
mapping and take the first candidate.  `none` means no edge matched
(foundNext stayed false). -/
def routeStep {T : Type} : List (ConditionalEdge T) → String → T →
    Option (Except InvokeError String)
  | [], _, _ => none
  | e :: rest, current, state =>
    if e.From = current then
      some (match e.Router state with
        | Except.error msg => Except.error (InvokeError.routerError current msg)
        | Except.ok [] =>
          Except.error (InvokeError.invalidRouterOutput "router returned no nodes")
        | Except.ok (n :: ns) =>
          -- applyMapping preserves the length, so the head default is unreachable
          Except.ok ((applyMapping e.Mapping (n :: ns)).headD ""))
    else
      routeStep rest current state

/-- An Interrupt call followed by WaitForResume, as both the breakpoint
path (Invoke lines 196 to 208) and the interrupt-error path (lines 232 to
244) perform it.  On a successful rendezvous the compliant controller has
called Resume, which reset the interrupted flag to false before sending;
`wrap` is the error wrapping of the respective Interrupt failure. -/
def interruptAndWait {T D : Type} (mT : T → Except String String)
    (mD : D → Except String String) (env : Env T) (wrap : String → InvokeError)
    (interrupted : Bool) (node : String) (data : Option D) (state : T)
    (resumeIdx : Nat) : Except InvokeError (T × Nat × Bool) × List (Emission T) :=
  match InterruptFlag mD mT interrupted node data state with
  | (_, Except.error e) => (Except.error (wrap e), [])
  | (_, Except.ok info) =>
    match env.resumes resumeIdx with
    | none =>
      (Except.error (InvokeError.waitForResume "context canceled"),
        [Emission.interrupt info])
    | some s =>
      (Except.ok (s, resumeIdx + 1, false), [Emission.interrupt info])

/-- The node-processing part of one Invoke loop iteration (lines 210 to
304): node lookup, node start event, step function with `s0` as input,
interrupt or error handling, node end event and update emission, routing,
step increment.  `s0`, `idx0` and `int0` are the current state, resume
counter and interrupted flag as left by the breakpoint phase. -/
def nodePhase {T D : Type} (G : StateGraph T D) (mT : T → Except String String)
    (mD : D → Except String String) (zero : T) (env : Env T) (ls : LoopState T)
    (s0 : T) (idx0 : Nat) (int0 : Bool) : IterOut T × List (Emission T) :=
  match (G.nodes.lookup ls.currentNode) with
  | none => (IterOut.ret zero (some (InvokeError.nodeNotFound ls.currentNode)), [])
  | some node =>
    let startEv : List (Emission T) :=
      emitEvent G.streamModes EventType.chainStart ls.currentNode
        (some (ls.steps, ls.currentNode))
    match node.Function s0 with
    | (s1, some (GoError.interruptError d)) =>
      match interruptAndWait mT mD env InvokeError.interruptTrigger int0
          ls.currentNode d s1 idx0 with
      | (Except.error e, tr2) =>
        (IterOut.ret zero (some e), startEv ++ tr2)
      | (Except.ok (s2, idx2, int2), tr2) =>
        (IterOut.next
          { ls with state := s2, resumeIdx := idx2,
                    interrupted := int2, iter := ls.iter + 1 },
          startEv ++ tr2)
    | (_, some (GoError.other msg)) =>
      (IterOut.ret zero (some (InvokeError.nodeExecution ls.currentNode msg)),
        startEv)
    | (s1, none) =>
      let endEv : List (Emission T) :=
        emitEvent G.streamModes EventType.chainEnd ls.currentNode
          (some (ls.steps, ls.currentNode))
      match routeStep G.edges ls.currentNode s1 with
      | none =>
        (IterOut.ret zero (some (InvokeError.noOutgoingEdge ls.currentNode)),
          startEv ++ endEv ++ emitUpdate G.streamModes s1)
      | some (Except.error e) =>
        (IterOut.ret zero (some e),
          startEv ++ endEv ++ emitUpdate G.streamModes s1)
      | some (Except.ok next) =>
        (IterOut.next
          { ls with currentNode := next, state := s1,
                    steps := ls.steps + 1, iter := ls.iter + 1,
                    resumeIdx := idx0, interrupted := int0 },
          startEv ++ endEv ++ emitUpdate G.streamModes s1)

/-- One iteration of the Invoke loop (lines 185 to 305): recursion-limit
check, END check, breakpoint phase, then the node phase. -/
def invokeIter {T D : Type} (G : StateGraph T D) (mT : T → Except String String)
    (mD : D → Except String String) (zero : T) (env : Env T) (ls : LoopState T) :
    IterOut T × List (Emission T) :=
  if G.recursionLimit ≤ (ls.steps : Int) then
    (IterOut.ret zero (some (InvokeError.recursionLimitExceeded G.recursionLimit)), [])
  else if ls.currentNode = END then
    (IterOut.ret ls.state none,
      emitValue G.streamModes ls.state ++
        emitEvent G.streamModes EventType.chainEnd "LangGraph" none)
  else
    match (if env.bps ls.iter ls.currentNode then
            interruptAndWait mT mD env InvokeError.breakpointTrigger ls.interrupted
              ls.currentNode none ls.state ls.resumeIdx
          else (Except.ok (ls.state, ls.resumeIdx, ls.interrupted), [])) with
    | (Except.error e, tr0) => (IterOut.ret zero (some e), tr0)
    | (Except.ok (s0, idx0, int0), tr0) =>
      match nodePhase G mT mD zero env ls s0 idx0 int0 with
      | (out, tr1) => (out, tr0 ++ tr1)

/-- The Invoke loop, fuel-bounded iteration of invokeIter. -/
def invokeLoop {T D : Type} (G : StateGraph T D) (mT : T → Except String String)
    (mD : D → Except String String) (zero : T) (env : Env T) :
    Nat → LoopState T → InvokeOutcome T × List (Emission T)
  | 0, ls => (InvokeOutcome.fuelOut ls, [])
  | Nat.succ fuel, ls =>
    match invokeIter G mT mD zero env ls with
    | (IterOut.ret s e, tr) => (InvokeOutcome.ret s e, tr)
    | (IterOut.next ls2, tr) =>
      match invokeLoop G mT mD zero env fuel ls2 with
      | (out, tr2) => (out, tr ++ tr2)

/-- RunnableState.Invoke (lines 172 to 317): emit the initial state and
the run-level start event, then run the loop from the entry point with
zero steps.  `interrupted0` is the interrupted flag of the shared
InterruptManager at entry (false unless a previous run left it set). -/
def Invoke {T D : Type} (G : StateGraph T D) (mT : T → Except String String)
    (mD : D → Except String String) (zero : T) (env : Env T) (fuel : Nat)
    (interrupted0 : Bool) (state : T) : InvokeOutcome T × List (Emission T) :=
  match invokeLoop G mT mD zero env fuel
      { currentNode := G.entryPoint, state := state, steps := 0, iter := 0,
                       resumeIdx := 0, interrupted := interrupted0 } with
  | (out, tr) =>
    (out,
      (emitValue G.streamModes state ++
        emitEvent G.streamModes EventType.chainStart "LangGraph" none) ++ tr)

/-- Test for an interrupt-channel emission in a trace. -/
def isInterruptEmission {T : Type} : Emission T → Bool
  | Emission.interrupt _ => true
  | _ => false

/-- Test for a values-mode StreamEvent in a trace. -/
def isStreamValueEmission {T : Type} : Emission T → Bool
  | Emission.streamValue _ => true
  | _ => false

/-- Test for an updates-mode StreamEvent in a trace. -/
def isStreamUpdateEmission {T : Type} : Emission T → Bool
  | Emission.streamUpdate _ => true
  | _ => false

/-- A concrete JSON marshal for Nat states and payloads. -/
def mNat : Nat → Except String String := fun n => Except.ok (toString n)

/-- A marshal function that always fails, as json.Marshal does on a Go
value containing an unsupported type (channel, function, NaN). -/
def mFailNat : Nat → Except String String :=
  fun _ => Except.error "json: unsupported type"

/-- A node whose step function interrupts through the package-level
Interrupt helper, carrying payload 1; its input state is 5 but the state
it returns alongside the error is the zero value 0. -/
def nodeIntHelper : StateNode Nat Nat :=
  { Name := "a", Function := fun _ => Interrupt 0 () (some 1) }

/-- Single-node graph whose node always interrupts. -/
def gInt : StateGraph Nat Nat :=
  { nodes := [("a", nodeIntHelper)], edges := [], entryPoint := "a",
    recursionLimit := 25, streamModes := [] }

/-- Environment with no breakpoints whose controller always resumes
with state 5. -/
def envR5 : Env Nat := { bps := fun _ _ => false, resumes := fun _ => some 5 }

/-- Initial loop state at node a with state 5. -/
def lsA : LoopState Nat :=
  { currentNode := "a", state := 5, steps := 0, iter := 0, resumeIdx := 0,
    interrupted := false }

/-- The state type of spec scenario A. -/
structure CalcState where
  Result : Nat
deriving DecidableEq, Repr

/-- Marshal for CalcState. -/
def mCalc : CalcState → Except String String :=
  fun s => Except.ok (toString s.Result)

/-- Scenario A graph: single node calc setting Result to 55, edge
calc to END, entry calc, values and updates modes active. -/
def gCalc : StateGraph CalcState Nat :=
  { nodes := [("calc",
      { Name := "calc", Function := fun _ => ({ Result := 55 }, none) })],
    edges := [{ From := "calc", Router := fun _ => Except.ok [END],
                Mapping := none }],
    entryPoint := "calc", recursionLimit := 25,
    streamModes := [StreamMode.values, StreamMode.updates] }

/-- Environment for scenario A: no breakpoints, no resume activity. -/
def envCalc : Env CalcState := { bps := fun _ _ => false, resumes := fun _ => none }

/-- Graph with a non-positive recursion limit. -/
def gNeg : StateGraph Nat Nat :=
  { nodes := [], edges := [], entryPoint := "a", recursionLimit := 0,
    streamModes := [StreamMode.values] }

/-- A normal incrementing node. -/
def nodeSucc : StateNode Nat Nat :=
  { Name := "b", Function := fun s => (s + 1, none) }

/-- Graph for the breakpoint scenario: node b, edge b to END. -/
def gBp : StateGraph Nat Nat :=
  { nodes := [("b", nodeSucc)],
    edges := [{ From := "b", Router := fun _ => Except.ok [END],
                Mapping := none }],
    entryPoint := "b", recursionLimit := 25, streamModes := [] }

/-- Environment whose breakpoint set contains node b at iteration 0 only
(the controller removes the breakpoint before the next visit) and whose
controller resumes with state 9. -/
def envBp : Env Nat := { bps := fun i _ => i == 0, resumes := fun _ => some 9 }

/-- Initial loop state at node b with state 3. -/
def lsB : LoopState Nat :=
  { currentNode := "b", state := 3, steps := 0, iter := 0, resumeIdx := 0,
    interrupted := false }

/-- An edge from node b (to be skipped when routing from a). -/
def edgeB : ConditionalEdge Nat :=
  { From := "b", Router := fun _ => Except.ok ["b"], Mapping := none }

/-- An edge from node a whose router returns two candidates and whose
mapping translates the first. -/
def edgeA : ConditionalEdge Nat :=
  { From := "a", Router := fun _ => Except.ok ["x", "y"],
    Mapping := some [("x", "nodeX")] }

/-- Graph whose entry point is the END sentinel. -/
def gEnd : StateGraph Nat Nat :=
  { nodes := [], edges := [], entryPoint := END, recursionLimit := 25,
    streamModes := [StreamMode.values] }

end Moego

namespace Moego

theorem filter_interrupt_emitValue {T : Type} (modes : List StreamMode) (s : T) :
    (emitValue modes s).filter isInterruptEmission = [] := by
  unfold emitValue; split <;> simp [isInterruptEmission]

theorem filter_interrupt_emitUpdate {T : Type} (modes : List StreamMode) (s : T) :
    (emitUpdate modes s).filter isInterruptEmission = [] := by
  unfold emitUpdate; split <;> simp [isInterruptEmission]

theorem filter_interrupt_emitEvent {T : Type} (modes : List StreamMode)
    (ty : EventType) (name : String) (meta : Option (Nat × String)) :
    ((emitEvent modes ty name meta : List (Emission T)).filter isInterruptEmission) = [] := by
  unfold emitEvent; split <;> simp [isInterruptEmission]

theorem invokeIter_interrupt_eq {T D : Type} (G : StateGraph T D)
    (mT : T → Except String String) (mD : D → Except String String)
    (zero : T) (env : Env T) (ls : LoopState T) (nd : StateNode T D)
    (s1 r : T) (d : Option D) (ds ss : String)
    (hlim : ¬ G.recursionLimit ≤ (ls.steps : Int))
    (hend : ¬ ls.currentNode = END)
    (hbp : env.bps ls.iter ls.currentNode = false)
    (hint : ls.interrupted = false)
    (hnd : G.nodes.lookup ls.currentNode = some nd)
    (hrun : nd.Function ls.state = (s1, some (GoError.interruptError d)))
    (hd : marshalDataOpt mD d = Except.ok ds)
    (hs : mT s1 = Except.ok ss)
    (henv : env.resumes ls.resumeIdx = some r) :
    invokeIter G mT mD zero env ls =
      (IterOut.next
        { ls with state := r, resumeIdx := ls.resumeIdx + 1,
                  interrupted := false, iter := ls.iter + 1 },
       emitEvent G.streamModes EventType.chainStart ls.currentNode
          (some (ls.steps, ls.currentNode)) ++
        [Emission.interrupt { NodeName := ls.currentNode, Data := ds, State := ss }]) := by
  unfold invokeIter nodePhase
  rw [if_neg hlim, if_neg hend, hbp]
  simp only [Bool.false_eq_true, if_false, hnd, hrun]
  unfold interruptAndWait InterruptFlag
  rw [hint]
  simp only [Bool.false_eq_true, if_false, hd, hs, henv, List.nil_append]

theorem nodePhase_error_zero {T D : Type} (G : StateGraph T D)
    (mT : T → Except String String) (mD : D → Except String String)
    (zero : T) (env : Env T) (ls : LoopState T) (s0 : T) (idx0 : Nat)
    (int0 : Bool) (s : T) (e : InvokeError) (tr : List (Emission T))
    (h : nodePhase G mT mD zero env ls s0 idx0 int0 = (IterOut.ret s (some e), tr)) :
    s = zero := by
  unfold nodePhase at h
  repeat' (first | split at h | simp only [] at h)
  all_goals simp_all

theorem invokeIter_error_zero {T D : Type} (G : StateGraph T D)
    (mT : T → Except String String) (mD : D → Except String String)
    (zero : T) (env : Env T) (ls : LoopState T) (s : T) (e : InvokeError)
    (tr : List (Emission T))
    (h : invokeIter G mT mD zero env ls = (IterOut.ret s (some e), tr)) :
    s = zero := by
  unfold invokeIter at h
  split at h
  · simp_all
  · split at h
    · simp_all
    · split at h
      · simp_all
      · rename_i s0 idx0 int0 tr0 heq
        rcases hnp : nodePhase G mT mD zero env ls s0 idx0 int0 with ⟨out, tr1⟩
        rw [hnp] at h
        simp only [Prod.mk.injEq] at h
        obtain ⟨hout, htr⟩ := h
        rw [hout] at hnp
        exact nodePhase_error_zero G mT mD zero env ls s0 idx0 int0 s e tr1 hnp

theorem invokeLoop_error_zero {T D : Type} (G : StateGraph T D)
    (mT : T → Except String String) (mD : D → Except String String)
    (zero : T) (env : Env T) :
    ∀ (fuel : Nat) (ls : LoopState T) (s : T) (e : InvokeError)
      (tr : List (Emission T)),
      invokeLoop G mT mD zero env fuel ls = (InvokeOutcome.ret s (some e), tr) →
      s = zero := by
  intro fuel
  induction fuel with
  | zero => intro ls s e tr h; simp [invokeLoop] at h
  | succ n ih =>
    intro ls s e tr h
    rw [show invokeLoop G mT mD zero env (n + 1) ls =
        match invokeIter G mT mD zero env ls with
        | (IterOut.ret s e, tr) => (InvokeOutcome.ret s e, tr)
        | (IterOut.next ls2, tr) =>
          match invokeLoop G mT mD zero env n ls2 with
          | (out, tr2) => (out, tr ++ tr2)
      from rfl] at h
    rcases hit : invokeIter G mT mD zero env ls with ⟨o, tr1⟩
    rw [hit] at h
    cases o with
    | ret s1 e1 =>
      simp only [Prod.mk.injEq, InvokeOutcome.ret.injEq] at h
      obtain ⟨⟨hs1, he1⟩, htr⟩ := h
      rw [hs1, he1] at hit
      exact invokeIter_error_zero G mT mD zero env ls s e tr1 hit
    | next ls2 =>
      simp only [] at h
      rcases hl : invokeLoop G mT mD zero env n ls2 with ⟨out, tr2⟩
      rw [hl] at h
      simp only [Prod.mk.injEq] at h
      obtain ⟨hout, htr⟩ := h
      exact ih ls2 s e tr2 (by rw [hl, hout])

theorem routeStep_skip {T : Type} (pre rest : List (ConditionalEdge T))
    (cur : String) (s : T) (hpre : ∀ e ∈ pre, e.From ≠ cur) :
    routeStep (pre ++ rest) cur s = routeStep rest cur s := by
  induction pre with
  | nil => rfl
  | cons e es ih =>
    rw [List.cons_append]
    simp only [routeStep]
    rw [if_neg (hpre e (List.mem_cons_self e es))]
    exact ih (fun x hx => hpre x (List.mem_cons_of_mem e hx))

theorem nodePhase_congr {T D : Type} (G : StateGraph T D)
    (mT : T → Except String String) (mD : D → Except String String)
    (zero : T) (bps1 bps2 : Nat → String → Bool) (res : Nat → Option T)
    (cn : String) (st1 st2 : T) (sp it : Nat) (ri1 ri2 : Nat) (ib1 ib2 : Bool)
    (s0 : T) (idx0 : Nat) (int0 : Bool) :
    nodePhase G mT mD zero { bps := bps1, resumes := res }
      { currentNode := cn, state := st1, steps := sp, iter := it,
        resumeIdx := ri1, interrupted := ib1 } s0 idx0 int0 =
    nodePhase G mT mD zero { bps := bps2, resumes := res }
      { currentNode := cn, state := st2, steps := sp, iter := it,
        resumeIdx := ri2, interrupted := ib2 } s0 idx0 int0 := rfl

theorem nodePhase_no_interrupt_trace {T D : Type} (G : StateGraph T D)
    (mT : T → Except String String) (mD : D → Except String String)
    (zero : T) (env : Env T) (ls : LoopState T) (nd : StateNode T D)
    (s0 : T) (idx0 : Nat) (int0 : Bool)
    (hnd : G.nodes.lookup ls.currentNode = some nd)
    (hni : IsInterruptError (nd.Function s0).2 = false) :
    ((nodePhase G mT mD zero env ls s0 idx0 int0).2).filter isInterruptEmission = [] := by
  unfold nodePhase
  rw [hnd]
  simp only []
  rcases hF : nd.Function s0 with ⟨s1, e1⟩
  rw [hF] at hni
  cases e1 with
  | none =>
    simp only []
    cases hRoute : routeStep G.edges ls.currentNode s1 with
    | none =>
      simp [List.filter_append, filter_interrupt_emitEvent, filter_interrupt_emitUpdate]
    | some r0 =>
      cases r0 <;>
        simp [List.filter_append, filter_interrupt_emitEvent, filter_interrupt_emitUpdate]
  | some ge =>
    cases ge with
    | interruptError d => simp [IsInterruptError] at hni
    | other m =>
      simp [filter_interrupt_emitEvent]

end Moego

namespace Moego

/-- C1 (amended): when a step function returns the interrupt-flavored
error, the emitted InterruptInfo carries the serialized interrupt payload
and the serialized state as returned by the step function alongside the
error (for the standard Interrupt helper, the zero value of T), because
Invoke overwrites its state variable with the function result before
calling InterruptManager.Interrupt; it does not carry the state that was
passed into the step function. -/
theorem interrupt_emission_state_after_step {T D : Type} (G : StateGraph T D)
    (mT : T → Except String String) (mD : D → Except String String)
    (zero : T) (env : Env T) (ls : LoopState T) (nd : StateNode T D)
    (s1 : T) (d : Option D) (ds ss : String)
    (hlim : ¬ G.recursionLimit ≤ (ls.steps : Int))
    (hend : ¬ ls.currentNode = END)
    (hbp : env.bps ls.iter ls.currentNode = false)
    (hint : ls.interrupted = false)
    (hnd : G.nodes.lookup ls.currentNode = some nd)
    (hrun : nd.Function ls.state = (s1, some (GoError.interruptError d)))
    (hd : marshalDataOpt mD d = Except.ok ds)
    (hs : mT s1 = Except.ok ss) :
    (invokeIter G mT mD zero env ls).2 =
      emitEvent G.streamModes EventType.chainStart ls.currentNode
        (some (ls.steps, ls.currentNode)) ++
      [Emission.interrupt { NodeName := ls.currentNode, Data := ds, State := ss }] := by
  unfold invokeIter nodePhase
  rw [if_neg hlim, if_neg hend, hbp]
  simp only [Bool.false_eq_true, if_false, hnd, hrun]
  unfold interruptAndWait InterruptFlag
  rw [hint]
  simp only [Bool.false_eq_true, if_false, hd, hs]
  cases henv : env.resumes ls.resumeIdx <;> simp

/-- Witness for C1: in graph gInt the node interrupts via the helper
from input state 5; the emitted InterruptInfo serializes the returned
zero state, giving the field value 0. -/
theorem interrupt_emission_state_after_step_witness :
    (invokeIter gInt mNat mNat 0 envR5 lsA).2 =
      emitEvent gInt.streamModes EventType.chainStart "a" (some (0, "a")) ++
      [Emission.interrupt { NodeName := "a", Data := "1", State := "0" }] :=
  interrupt_emission_state_after_step gInt mNat mNat 0 envR5 lsA nodeIntHelper
    0 (some 1) "1" "0" (by decide) (by decide) rfl rfl rfl rfl rfl rfl

/-- Counterexample for C1 as stated: at input state 5 the emitted
InterruptInfo has State field 0 (the serialization of the zero state the
helper returned), not 5 (the serialization of the pre-step state), so the
InterruptInfo does not carry the state as it was before the step. -/
theorem interrupt_emission_prestep_cex :
    (Invoke gInt mNat mNat 0 envR5 1 false 5).2 =
      [Emission.interrupt { NodeName := "a", Data := "1", State := "0" }] ∧
    mNat 5 = Except.ok "5" ∧
    ("0" : String) ≠ "5" :=
  ⟨rfl, rfl, by decide⟩

/-- C2 (confirmed): whenever the completed step count has reached or
exceeded the recursion limit at the top of a loop iteration, Invoke fails
with the recursion-limit error before the END check and before any node
work, emitting nothing in that iteration; with a non-positive limit the
whole Invoke fails on the first iteration, the loop emitting nothing
beyond the initial bracketing emissions and executing no node function. -/
theorem recursion_limit_check {T D : Type} (G : StateGraph T D)
    (mT : T → Except String String) (mD : D → Except String String)
    (zero : T) (env : Env T) (fuel : Nat) (ls : LoopState T) (i0 : Bool) (s : T) :
    (G.recursionLimit ≤ (ls.steps : Int) →
      invokeLoop G mT mD zero env (fuel + 1) ls =
        (InvokeOutcome.ret zero
          (some (InvokeError.recursionLimitExceeded G.recursionLimit)), [])) ∧
    (G.recursionLimit ≤ 0 →
      Invoke G mT mD zero env (fuel + 1) i0 s =
        (InvokeOutcome.ret zero
          (some (InvokeError.recursionLimitExceeded G.recursionLimit)),
         emitValue G.streamModes s ++
           emitEvent G.streamModes EventType.chainStart "LangGraph" none)) := by
  constructor
  · intro hlim
    rw [show invokeLoop G mT mD zero env (fuel + 1) ls =
        match invokeIter G mT mD zero env ls with
        | (IterOut.ret s e, tr) => (InvokeOutcome.ret s e, tr)
        | (IterOut.next ls2, tr) =>
          match invokeLoop G mT mD zero env fuel ls2 with
          | (out, tr2) => (out, tr ++ tr2)
      from rfl]
    unfold invokeIter
    rw [if_pos hlim]
  · intro hlim
    unfold Invoke
    have h1 : invokeLoop G mT mD zero env (fuel + 1)
        { currentNode := G.entryPoint, state := s, steps := 0, iter := 0,
                         resumeIdx := 0, interrupted := i0 } =
        (InvokeOutcome.ret zero
          (some (InvokeError.recursionLimitExceeded G.recursionLimit)), []) := by
      rw [show invokeLoop G mT mD zero env (fuel + 1)
          { currentNode := G.entryPoint, state := s, steps := 0, iter := 0,
                           resumeIdx := 0, interrupted := i0 } =
          match invokeIter G mT mD zero env
              { currentNode := G.entryPoint, state := s, steps := 0, iter := 0,
                               resumeIdx := 0, interrupted := i0 } with
          | (IterOut.ret s e, tr) => (InvokeOutcome.ret s e, tr)
          | (IterOut.next ls2, tr) =>
            match invokeLoop G mT mD zero env fuel ls2 with
            | (out, tr2) => (out, tr ++ tr2)
        from rfl]
      unfold invokeIter
      rw [if_pos (by simpa using hlim)]
    rw [h1]
    simp

/-- Witness for C2: with recursion limit 0 the loop fails immediately at
steps 0, and a full Invoke on graph gNeg fails with only the initial
emissions, no node ever executing. -/
theorem recursion_limit_check_witness :
    invokeLoop gNeg mNat mNat 0 envR5 1 lsA =
      (InvokeOutcome.ret 0
        (some (InvokeError.recursionLimitExceeded gNeg.recursionLimit)), []) ∧
    Invoke gNeg mNat mNat 0 envR5 1 false 7 =
      (InvokeOutcome.ret 0
        (some (InvokeError.recursionLimitExceeded gNeg.recursionLimit)),
       emitValue gNeg.streamModes 7 ++
         emitEvent gNeg.streamModes EventType.chainStart "LangGraph" none) := by
  have h := recursion_limit_check gNeg mNat mNat 0 envR5 0 lsA false 7
  exact ⟨h.1 (by decide), h.2 (by decide)⟩

/-- C3 (confirmed): the routing step uses the first edge in definition
order whose From field equals the current node; for that edge, a non-nil
mapping is applied to every name the router returned, mapped names being
translated and names absent from the mapping passing through unchanged,
and the chosen next node is the first mapping-translated candidate no
matter how many candidates the router returned. -/
theorem routing_first_match {T : Type} (pre post : List (ConditionalEdge T))
    (e : ConditionalEdge T) (cur : String) (s : T) (n : String) (ns : List String)
    (hpre : ∀ x ∈ pre, x.From ≠ cur) (hFrom : e.From = cur)
    (hR : e.Router s = Except.ok (n :: ns)) :
    routeStep (pre ++ e :: post) cur s =
      some (Except.ok (mapName e.Mapping n)) ∧
    applyMapping e.Mapping (n :: ns) = (n :: ns).map (mapName e.Mapping) ∧
    (∀ mp x y, e.Mapping = some mp → mp.lookup x = some y → mapName e.Mapping x = y) ∧
    (∀ mp x, e.Mapping = some mp → mp.lookup x = none → mapName e.Mapping x = x) := by
  have hid : mapName (none : Option (List (String × String))) = id := funext fun _ => rfl
  refine ⟨?_, ?_, ?_, ?_⟩
  · rw [routeStep_skip pre (e :: post) cur s hpre]
    simp only [routeStep]
    rw [if_pos hFrom, hR]
    cases hm : e.Mapping with
    | none => rfl
    | some mp => rfl
  · cases hm : e.Mapping with
    | none => rw [hid, List.map_id]; rfl
    | some mp => rfl
  · intro mp x y hm hx
    simp [mapName, hm, hx]
  · intro mp x hm hx
    simp [mapName, hm, hx]

/-- Witness for C3: routing from node a skips the earlier edge of node b,
uses the edge of node a, maps the first candidate x through the mapping
to nodeX, and translates the whole candidate list elementwise. -/
theorem routing_first_match_witness :
    routeStep ([edgeB] ++ edgeA :: []) "a" (3 : Nat) =
      some (Except.ok "nodeX") ∧
    applyMapping edgeA.Mapping ["x", "y"] = ["nodeX", "y"] := by
  have h := routing_first_match [edgeB] [] edgeA "a" 3 "x" ["y"]
    (by intro x hx
        rcases List.mem_singleton.mp hx with rfl
        decide) rfl rfl
  exact ⟨h.1, h.2.1⟩

/-- C4 (confirmed): when a step function returns the interrupt-flavored
error and the run is resumed, the loop re-enters with the same current
node and unchanged step counter, the resumed state replacing the current
state, so the same node is re-invoked rather than advancing. -/
theorem interrupt_resume_retries_same_node {T D : Type} (G : StateGraph T D)
    (mT : T → Except String String) (mD : D → Except String String)
    (zero : T) (env : Env T) (fuel : Nat) (ls : LoopState T) (nd : StateNode T D)
    (s1 r : T) (d : Option D) (ds ss : String)
    (hlim : ¬ G.recursionLimit ≤ (ls.steps : Int))
    (hend : ¬ ls.currentNode = END)
    (hbp : env.bps ls.iter ls.currentNode = false)
    (hint : ls.interrupted = false)
    (hnd : G.nodes.lookup ls.currentNode = some nd)
    (hrun : nd.Function ls.state = (s1, some (GoError.interruptError d)))
    (hd : marshalDataOpt mD d = Except.ok ds)
    (hs : mT s1 = Except.ok ss)
    (henv : env.resumes ls.resumeIdx = some r) :
    invokeLoop G mT mD zero env (fuel + 1) ls =
      ((invokeLoop G mT mD zero env fuel
          { ls with state := r, resumeIdx := ls.resumeIdx + 1,
                    interrupted := false, iter := ls.iter + 1 }).1,
        (emitEvent G.streamModes EventType.chainStart ls.currentNode
            (some (ls.steps, ls.currentNode)) ++
          [Emission.interrupt { NodeName := ls.currentNode, Data := ds, State := ss }]) ++
        (invokeLoop G mT mD zero env fuel
          { ls with state := r, resumeIdx := ls.resumeIdx + 1,
                    interrupted := false, iter := ls.iter + 1 }).2) ∧
    ({ ls with state := r, resumeIdx := ls.resumeIdx + 1,
               interrupted := false, iter := ls.iter + 1 } : LoopState T).currentNode
      = ls.currentNode ∧
    ({ ls with state := r, resumeIdx := ls.resumeIdx + 1,
               interrupted := false, iter := ls.iter + 1 } : LoopState T).steps
      = ls.steps ∧
    ({ ls with state := r, resumeIdx := ls.resumeIdx + 1,
               interrupted := false, iter := ls.iter + 1 } : LoopState T).state = r := by
  refine ⟨?_, rfl, rfl, rfl⟩
  have h := invokeIter_interrupt_eq G mT mD zero env ls nd s1 r d ds ss
    hlim hend hbp hint hnd hrun hd hs henv
  have h2 : invokeLoop G mT mD zero env (fuel + 1) ls =
      match invokeIter G mT mD zero env ls with
      | (IterOut.ret s e, tr) => (InvokeOutcome.ret s e, tr)
      | (IterOut.next ls2, tr) =>
        match invokeLoop G mT mD zero env fuel ls2 with
        | (out, tr2) => (out, tr ++ tr2) := rfl
  rw [h2, h]

/-- Witness for C4: on graph gInt the interrupting node is retried from
the top of the loop with resumed state 5, same node a and steps 0. -/
theorem interrupt_resume_retries_same_node_witness :
    invokeLoop gInt mNat mNat 0 envR5 1 lsA =
      ((invokeLoop gInt mNat mNat 0 envR5 0
          { lsA with state := 5, resumeIdx := 1,
                     interrupted := false, iter := 1 }).1,
        (emitEvent gInt.streamModes EventType.chainStart "a" (some (0, "a")) ++
          [Emission.interrupt { NodeName := "a", Data := "1", State := "0" }]) ++
        (invokeLoop gInt mNat mNat 0 envR5 0
          { lsA with state := 5, resumeIdx := 1,
                     interrupted := false, iter := 1 }).2) ∧
    ({ lsA with state := 5, resumeIdx := 1,
                interrupted := false, iter := 1 } : LoopState Nat).currentNode = "a" ∧
    ({ lsA with state := 5, resumeIdx := 1,
                interrupted := false, iter := 1 } : LoopState Nat).steps = 0 ∧
    ({ lsA with state := 5, resumeIdx := 1,
                interrupted := false, iter := 1 } : LoopState Nat).state = 5 :=
  interrupt_resume_retries_same_node gInt mNat mNat 0 envR5 0 lsA nodeIntHelper
    0 5 (some 1) "1" "0" (by decide) (by decide) rfl rfl rfl rfl rfl rfl rfl

end Moego

namespace Moego

/-- C5 (confirmed): a visit to a node whose breakpoint is set emits
exactly one InterruptInfo (payload null, state serialized), before the
node start event and step function, and the visit then proceeds exactly
as a breakpoint-free visit whose input state is the resumed state; when
the breakpoint is absent at the visit (for example removed before a later
visit) and the step function does not interrupt, the visit emits no
InterruptInfo at all. -/
theorem breakpoint_visit_emission {T D : Type} (G : StateGraph T D)
    (mT : T → Except String String) (mD : D → Except String String)
    (zero : T) (env : Env T) (ls : LoopState T) (nd : StateNode T D)
    (ss : String) (r : T)
    (hlim : ¬ G.recursionLimit ≤ (ls.steps : Int))
    (hend : ¬ ls.currentNode = END)
    (hnd : G.nodes.lookup ls.currentNode = some nd) :
    (env.bps ls.iter ls.currentNode = true → ls.interrupted = false →
      mT ls.state = Except.ok ss → env.resumes ls.resumeIdx = some r →
      invokeIter G mT mD zero env ls =
        ((invokeIter G mT mD zero { env with bps := fun _ _ => false }
            { ls with state := r, resumeIdx := ls.resumeIdx + 1,
                      interrupted := false }).1,
          Emission.interrupt
              { NodeName := ls.currentNode, Data := "null", State := ss } ::
            (invokeIter G mT mD zero { env with bps := fun _ _ => false }
              { ls with state := r, resumeIdx := ls.resumeIdx + 1,
                        interrupted := false }).2)) ∧
    (env.bps ls.iter ls.currentNode = false →
      IsInterruptError (nd.Function ls.state).2 = false →
      ((invokeIter G mT mD zero env ls).2).filter isInterruptEmission = []) := by
  obtain ⟨bps0, res0⟩ := env
  obtain ⟨cn, st, sp, it, ri, ib⟩ := ls
  simp only at hlim hend hnd
  constructor
  · intro hbp hint hs henv
    simp only at hbp hint hs henv
    subst hint
    unfold invokeIter
    rw [if_neg hlim, if_neg hend, if_neg hlim, if_neg hend]
    simp only [hbp, if_true]
    unfold interruptAndWait InterruptFlag
    simp only [Bool.false_eq_true, if_false, marshalDataOpt, hs, henv]
    rw [nodePhase_congr G mT mD zero (fun _ _ => false) bps0 res0 cn r st sp it
      (ri + 1) ri false false r (ri + 1) false]
    rcases hnp : nodePhase G mT mD zero { bps := bps0, resumes := res0 }
        { currentNode := cn, state := st, steps := sp, iter := it,
          resumeIdx := ri, interrupted := false } r (ri + 1) false with ⟨out, tr1⟩
    simp
  · intro hbp hni
    simp only at hbp hni
    unfold invokeIter
    rw [if_neg hlim, if_neg hend]
    simp only [hbp, Bool.false_eq_true, if_false]
    rcases hnp : nodePhase G mT mD zero { bps := bps0, resumes := res0 }
        { currentNode := cn, state := st, steps := sp, iter := it,
          resumeIdx := ri, interrupted := ib } st ri ib with ⟨out, tr1⟩
    have := nodePhase_no_interrupt_trace G mT mD zero
      { bps := bps0, resumes := res0 }
      { currentNode := cn, state := st, steps := sp, iter := it,
        resumeIdx := ri, interrupted := ib } nd st ri ib hnd hni
    rw [hnp] at this
    simp [this]

/-- Witness for C5: in graph gBp the breakpoint at node b fires on the
first visit (iteration 0), emitting one InterruptInfo before the node
runs and continuing with resumed state 9; at iteration 1 the breakpoint
is gone and the visit emits no InterruptInfo. -/
theorem breakpoint_visit_emission_witness :
    invokeIter gBp mNat mNat 0 envBp lsB =
      ((invokeIter gBp mNat mNat 0 { envBp with bps := fun _ _ => false }
          { lsB with state := 9, resumeIdx := 1, interrupted := false }).1,
        Emission.interrupt { NodeName := "b", Data := "null", State := "3" } ::
          (invokeIter gBp mNat mNat 0 { envBp with bps := fun _ _ => false }
            { lsB with state := 9, resumeIdx := 1, interrupted := false }).2) ∧
    ((invokeIter gBp mNat mNat 0 envBp
        { lsB with iter := 1 }).2).filter isInterruptEmission = [] := by
  have h1 := breakpoint_visit_emission gBp mNat mNat 0 envBp lsB nodeSucc "3" 9
    (by decide) (by decide) rfl
  have h2 := breakpoint_visit_emission gBp mNat mNat 0 envBp
    { lsB with iter := 1 } nodeSucc "3" 9 (by decide) (by decide) rfl
  exact ⟨h1.1 rfl rfl rfl rfl, h2.2 rfl rfl⟩

/-- C6 (amended): InterruptManager.Interrupt fails with the
already-interrupted error, leaving the manager unchanged, whenever the
interrupted flag is already true; otherwise it first flips the
interrupted flag to true (under the mutex) and only then serializes the
data and the state, so a serialization failure returns the error with
the interrupted flag already true; when both serializations succeed it
sends the InterruptInfo built from them. -/
theorem interrupt_manager_flag_spec {T D : Type} (mD : D → Except String String)
    (mT : T → Except String String) (m : InterruptManager) (node : String)
    (data : Option D) (state : T) :
    (m.interrupted = true →
      InterruptManager.Interrupt mD mT m node data state =
        (m, Except.error "already interrupted")) ∧
    (m.interrupted = false →
      (InterruptManager.Interrupt mD mT m node data state).1 =
        { m with interrupted := true }) ∧
    (∀ ds ss, m.interrupted = false → marshalDataOpt mD data = Except.ok ds →
      mT state = Except.ok ss →
      (InterruptManager.Interrupt mD mT m node data state).2 =
        Except.ok { NodeName := node, Data := ds, State := ss }) := by
  obtain ⟨ib, bps⟩ := m
  refine ⟨?_, ?_, ?_⟩
  · intro h
    simp only at h
    subst h
    rfl
  · intro h
    simp only at h
    subst h
    unfold InterruptManager.Interrupt InterruptFlag
    simp only [Bool.false_eq_true, if_false]
    cases hd : marshalDataOpt mD data with
    | error e => rfl
    | ok ds =>
      cases hs : mT state with
      | error e => rfl
      | ok ss => rfl
  · intro ds ss h hd hs
    simp only at h
    subst h
    unfold InterruptManager.Interrupt InterruptFlag
    simp only [Bool.false_eq_true, if_false, hd, hs]

/-- Witness for C6: a manager already interrupted rejects the call
unchanged; one not interrupted flips the flag and, with successful
serialization, sends the serialized InterruptInfo. -/
theorem interrupt_manager_flag_spec_witness :
    InterruptManager.Interrupt mNat mNat
        { interrupted := true, breakpoints := [] } "n" (some 1) (4 : Nat) =
      ({ interrupted := true, breakpoints := [] }, Except.error "already interrupted") ∧
    (InterruptManager.Interrupt mNat mNat
        { interrupted := false, breakpoints := [] } "n" (some 1) (4 : Nat)).1 =
      { interrupted := true, breakpoints := [] } ∧
    (InterruptManager.Interrupt mNat mNat
        { interrupted := false, breakpoints := [] } "n" (some 1) (4 : Nat)).2 =
      Except.ok { NodeName := "n", Data := "1", State := "4" } := by
  have h1 := interrupt_manager_flag_spec mNat mNat
    { interrupted := true, breakpoints := [] } "n" (some 1) (4 : Nat)
  have h2 := interrupt_manager_flag_spec mNat mNat
    { interrupted := false, breakpoints := [] } "n" (some 1) (4 : Nat)
  exact ⟨h1.1 rfl, h2.2.1 rfl, h2.2.2 "1" "4" rfl rfl rfl⟩

/-- Counterexample for C6 as stated: with a state marshal that fails, the
call from a non-interrupted manager returns the serialization error with
the interrupted flag already flipped to true, not still false as the
claim requires, because the code flips the flag before marshalling. -/
theorem interrupt_manager_marshal_cex :
    (InterruptManager.Interrupt mNat mFailNat
        { interrupted := false, breakpoints := [] } "n" (some 1) (4 : Nat)).2 =
      Except.error "json: unsupported type" ∧
    (InterruptManager.Interrupt mNat mFailNat
        { interrupted := false, breakpoints := [] } "n" (some 1) (4 : Nat)).1.interrupted
      = true ∧
    (InterruptManager.Interrupt mNat mFailNat
        { interrupted := false, breakpoints := [] } "n" (some 1) (4 : Nat)).1.interrupted
      ≠ false :=
  ⟨rfl, rfl, by decide⟩

/-- C7 (confirmed): whenever Invoke returns with a non-nil error, the
state it returns is the zero value of the state type, on every fatal
path of the loop. -/
theorem invoke_error_returns_zero {T D : Type} (G : StateGraph T D)
    (mT : T → Except String String) (mD : D → Except String String)
    (zero : T) (env : Env T) (fuel : Nat) (i0 : Bool) (s0 s : T)
    (e : InvokeError) (tr : List (Emission T))
    (h : Invoke G mT mD zero env fuel i0 s0 = (InvokeOutcome.ret s (some e), tr)) :
    s = zero := by
  unfold Invoke at h
  rcases hl : invokeLoop G mT mD zero env fuel
      { currentNode := G.entryPoint, state := s0, steps := 0, iter := 0,
                       resumeIdx := 0, interrupted := i0 } with ⟨out, tr2⟩
  rw [hl] at h
  simp only [Prod.mk.injEq] at h
  obtain ⟨hout, htr⟩ := h
  exact invokeLoop_error_zero G mT mD zero env fuel _ s e tr2 (by rw [hl, hout])

/-- Witness for C7: the failing run on gNeg returns the zero state 0
together with the recursion-limit error. -/
theorem invoke_error_returns_zero_witness :
    Invoke gNeg mNat mNat 0 envR5 1 false 7 =
      (InvokeOutcome.ret 0 (some (InvokeError.recursionLimitExceeded 0)),
        [Emission.streamValue 7]) ∧
    (0 : Nat) = 0 :=
  ⟨by decide,
   invoke_error_returns_zero gNeg mNat mNat 0 envR5 1 false 7 0
     (InvokeError.recursionLimitExceeded 0) [Emission.streamValue 7] (by decide)⟩

/-- C8 (confirmed): scenario A: on the graph with single node calc, edge
calc to END, entry calc and a step function returning Result 55, Invoke
returns the state with Result 55, and with the values and updates modes
active the run emits exactly two StreamValues events (the initial and the
final state) and exactly one StreamUpdates event. -/
theorem scenario_calc_result_55 :
    (Invoke gCalc mCalc mNat { Result := 0 } envCalc 5 false { Result := 0 }).1 =
      InvokeOutcome.ret { Result := 55 } none ∧
    ((Invoke gCalc mCalc mNat { Result := 0 } envCalc 5 false
        { Result := 0 }).2).filter isStreamValueEmission =
      [Emission.streamValue { Result := 0 }, Emission.streamValue { Result := 55 }] ∧
    ((Invoke gCalc mCalc mNat { Result := 0 } envCalc 5 false
        { Result := 0 }).2).filter isStreamUpdateEmission =
      [Emission.streamUpdate { Result := 55 }] := by
  refine ⟨by decide, by decide, by decide⟩

/-- C9 (confirmed): the Interrupt helper, for every context and payload,
returns the zero value of the state type paired with an InterruptError
carrying the payload; the error satisfies IsInterruptError and
GetInterruptData recovers the payload, so a step function interrupting
through the helper yields the zero state, not its input state. -/
theorem interrupt_helper_returns_zero_state {T D C : Type} (zero : T) (ctx : C)
    (data : Option D) :
    Interrupt zero ctx data = (zero, some (GoError.interruptError data)) ∧
    IsInterruptError ((Interrupt zero ctx data).2) = true ∧
    GetInterruptData ((Interrupt zero ctx data).2) = (data, true) :=
  ⟨rfl, rfl, rfl⟩

/-- C10 (confirmed): when the entry point equals END and the recursion
limit is positive, Invoke executes no node function and no router,
returning the input state unchanged with no error; the trace is exactly
the initial emissions followed by the final emissions, the same state
appearing as both the initial and the final StreamValues event. -/
theorem invoke_entry_end {T D : Type} (G : StateGraph T D)
    (mT : T → Except String String) (mD : D → Except String String)
    (zero : T) (env : Env T) (fuel : Nat) (i0 : Bool) (s : T)
    (hE : G.entryPoint = END) (hpos : 0 < G.recursionLimit) :
    Invoke G mT mD zero env (fuel + 1) i0 s =
      (InvokeOutcome.ret s none,
        (emitValue G.streamModes s ++
          emitEvent G.streamModes EventType.chainStart "LangGraph" none) ++
        (emitValue G.streamModes s ++
          emitEvent G.streamModes EventType.chainEnd "LangGraph" none)) := by
  unfold Invoke
  have h1 : invokeLoop G mT mD zero env (fuel + 1)
      { currentNode := G.entryPoint, state := s, steps := 0, iter := 0,
                       resumeIdx := 0, interrupted := i0 } =
      (InvokeOutcome.ret s none,
        emitValue G.streamModes s ++
          emitEvent G.streamModes EventType.chainEnd "LangGraph" none) := by
    rw [show invokeLoop G mT mD zero env (fuel + 1)
        { currentNode := G.entryPoint, state := s, steps := 0, iter := 0,
                         resumeIdx := 0, interrupted := i0 } =
        match invokeIter G mT mD zero env
            { currentNode := G.entryPoint, state := s, steps := 0, iter := 0,
                             resumeIdx := 0, interrupted := i0 } with
        | (IterOut.ret s e, tr) => (InvokeOutcome.ret s e, tr)
        | (IterOut.next ls2, tr) =>
          match invokeLoop G mT mD zero env fuel ls2 with
          | (out, tr2) => (out, tr ++ tr2)
      from rfl]
    unfold invokeIter
    rw [if_neg (by simpa using hpos), if_pos hE]
  rw [h1]

/-- Witness for C10: a graph entered at END returns the input state 3
with the bracketing emissions only. -/
theorem invoke_entry_end_witness :
    Invoke gEnd mNat mNat 0 envR5 1 false 3 =
      (InvokeOutcome.ret 3 none,
        (emitValue gEnd.streamModes 3 ++
          emitEvent gEnd.streamModes EventType.chainStart "LangGraph" none) ++
        (emitValue gEnd.streamModes 3 ++
          emitEvent gEnd.streamModes EventType.chainEnd "LangGraph" none)) :=
  invoke_entry_end gEnd mNat mNat 0 envR5 0 false 3 rfl (by decide)

end Moego
